import Mathlib

/-!
Shallow embedding of the WeatherBot repository (two versions of one
Telegram weather bot: `src/resultv1.py` and `src/resultv2.py`).

The chat transport (`bot.send_message`) is modelled by accumulating the
outbound messages `(chat_id, text)` in a list; `register_next_step_handler`
is modelled by an explicit `NextStep` value returned by the handler (it
names the handler that will receive the next free-text message, which is
the whole conversation state of the Python program).  The external weather
HTTP endpoint is a parameter `resp : String → String → ApiResult`
(city and `lang` query parameter → parsed JSON outcome); the googletrans
translator is a parameter returning `Except` (an `error` models the
library raising).  Numeric JSON fields (`main.temp`, `main.humidity`,
`wind.speed`) are carried as their rendered decimal text, because the code
only ever interpolates them into message strings.
-/

/-- Telegram chat identifier (`message.chat.id`, an integer). -/
abbrev ChatId := Int

/-- Outcome of one call to the OpenWeatherMap endpoint, as seen by the
Python code after `response.json()`:
* `ok`: `cod == 200` with all of `main.temp`, `weather[0].description`,
  `main.humidity`, `wind.speed` present;
* `apiError`: `cod != 200`, carrying the provider `message` field
  (already defaulted to "Unknown error" when absent);
* `requestException`: `requests` raised (network/timeout fault), carrying
  the exception text;
* `parseError`: `cod == 200` but an expected field is missing
  (`KeyError`/`IndexError` on subscripting `data`). -/
inductive ApiResult where
  | ok (temp : String) (description : String) (humidity : String) (windSpeed : String)
  | apiError (message : String)
  | requestException (message : String)
  | parseError
deriving DecidableEq, Repr

/-- Python `str.lower` on one character, for the characters this program
meets: ASCII plus the Cyrillic range А..Я and Ё. -/
def pyLowerChar (c : Char) : Char :=
  if 0x410 ≤ c.toNat ∧ c.toNat ≤ 0x42F then Char.ofNat (c.toNat + 0x20)
  else if c.toNat = 0x401 then Char.ofNat 0x451
  else c.toLower

/-- Python `str.upper` on one character (same character ranges). -/
def pyUpperChar (c : Char) : Char :=
  if 0x430 ≤ c.toNat ∧ c.toNat ≤ 0x44F then Char.ofNat (c.toNat - 0x20)
  else if c.toNat = 0x451 then Char.ofNat 0x401
  else c.toUpper

/-- Python `str.lower`.  (Defined structurally on the character list so
that it evaluates on concrete inputs.) -/
def pyLower (s : String) : String := String.mk (s.data.map pyLowerChar)

/-- Python `str.strip()`: drop leading and trailing whitespace.  (Defined
structurally on the character list so that it evaluates on concrete
inputs.) -/
def pyStrip (s : String) : String :=
  String.mk (((s.data.dropWhile Char.isWhitespace).reverse.dropWhile Char.isWhitespace).reverse)

/-- Python `str.capitalize`: first character uppercased, the rest
lowercased. -/
def pyCapitalize (s : String) : String :=
  match s.data with
  | [] => ""
  | c :: rest => String.mk (pyUpperChar c :: rest.map pyLowerChar)

/-! ### Python `dict` operations

Both versions keep subscribers in a module-level `dict` keyed by
`chat_id`.  A dict with unique keys is embedded as an association list in
insertion order; `d[k] = v` replaces in place when the key is present and
appends otherwise, `del d[k]` removes the key's entry, `d.get(k)` /
`k in d` is `lookup`. -/

namespace PyDict

def lookup {α : Type} (users : List (ChatId × α)) (chat : ChatId) : Option α :=
  match users with
  | [] => none
  | p :: rest => if p.1 = chat then some p.2 else lookup rest chat

def upsert {α : Type} (users : List (ChatId × α)) (chat : ChatId) (v : α) : List (ChatId × α) :=
  match users with
  | [] => [(chat, v)]
  | p :: rest => if p.1 = chat then (chat, v) :: rest else p :: upsert rest chat v

def erase {α : Type} (users : List (ChatId × α)) (chat : ChatId) : List (ChatId × α) :=
  users.filter (fun p => p.1 != chat)

end PyDict

/-! ### resultv2.py -/

/-- One entry of v2's `users` dict: `{"city": str, "language": str}`.
Every record the program ever writes carries both keys
(`process_city_input` and `process_language_selection` always set both),
so `user_info.get("language", DEFAULT_LANGUAGE)` reads the stored
language. -/
structure UserInfo where
  city : String
  language : String
deriving DecidableEq, Repr

/-- v2's module-level `users: Dict[int, Dict[str, str]]`. -/
abbrev Store := List (ChatId × UserInfo)

/-- `UPDATE_INTERVAL_MINUTES = 60`. -/
def UPDATE_INTERVAL_MINUTES : Nat := 60

/-- `DEFAULT_LANGUAGE = 'ru'`. -/
def DEFAULT_LANGUAGE : String := "ru"

/-- v2 `get_weather(city, language)`: formats the weather message on
`cod == 200`, otherwise raises `WeatherServiceError` (the `error` case
carries `str(e)`).  `requests` faults and `KeyError`/`IndexError` are
re-raised as `WeatherServiceError` with the fixed texts used in the code. -/
def get_weather (resp : String → String → ApiResult) (city : String) (language : String) :
    Except String String :=
  match resp city language with
  | ApiResult.ok temp desc hum wind =>
      Except.ok ("Погода в городе " ++ city ++ ":\n🌡 Температура: " ++ temp
        ++ "°C\n☁️ Состояние: " ++ pyCapitalize desc
        ++ "\n💧 Влажность: " ++ hum ++ "%\n💨 Скорость ветра: " ++ wind ++ " м/с")
  | ApiResult.apiError msg => Except.error ("API error: " ++ msg)
  | ApiResult.requestException e => Except.error ("Ошибка соединения: " ++ e)
  | ApiResult.parseError => Except.error "Ошибка обработки данных погоды"

/-- v2 `translate_text(text, dest_language)`: the translator parameter's
`error` models googletrans raising; the function wraps any failure in
`TranslationError` with the prefix used in the code.  (No other function
of resultv2.py calls `translate_text`.) -/
def translate_text (tr : String → String → Except String String) (text : String)
    (dest_language : String) : Except String String :=
  match tr text dest_language with
  | Except.ok t => Except.ok t
  | Except.error e => Except.error ("Ошибка перевода: " ++ e)

/-- v2 `send_weather_update(chat_id, city, language)`: on success sends the
weather message to the chat; on `WeatherServiceError e` sends
`"Не удалось получить погоду для {city}: {str(e)}"` to the chat (and logs
it).  Returns the messages sent. -/
def send_weather_update (resp : String → String → ApiResult) (chat : ChatId)
    (city : String) (language : String) : List (ChatId × String) :=
  match get_weather resp city language with
  | Except.ok weather => [(chat, weather)]
  | Except.error e => [(chat, "Не удалось получить погоду для " ++ city ++ ": " ++ e)]

/-- v2 `send_updates_to_all_users()`: iterates over `users.copy().items()`
and calls `send_weather_update` for every entry (each iteration is inside
`try/except`, and `send_weather_update` already absorbs
`WeatherServiceError`, so no entry's failure stops the loop).  Each list
element is one delivery attempt: the chat attempted, paired with the
messages that attempt sent. -/
def send_updates_to_all_users (resp : String → String → ApiResult) (users : Store) :
    List (ChatId × List (ChatId × String)) :=
  users.map (fun p => (p.1, send_weather_update resp p.1 p.2.city p.2.language))

/-- Which handler `register_next_step_handler` has armed for the chat's
next free-text message (the conversation state of the Python program):
none (`idle`), `process_city_input` (`awaitingCity`), or
`process_language_selection` (`awaitingLanguage`). -/
inductive NextStep where
  | idle
  | awaitingCity
  | awaitingLanguage
deriving DecidableEq, Repr

/-- Result of running one v2 message handler: the `users` dict afterwards,
the next-step handler registered (if any), and the outbound messages. -/
structure StepResult where
  users : Store
  next : NextStep
  sent : List (ChatId × String)
deriving DecidableEq, Repr

/-- v2 `process_city_input(message)`: validates `message.text.strip()` with
a test `get_weather(city)` call (default language).  On success stores
`{"city": city, "language": DEFAULT_LANGUAGE}`, sends the confirmation and
an immediate `send_weather_update(chat, city)` (default language again: a
second fetch).  On `WeatherServiceError` sends the retry message (which
interpolates the raw `message.text`) and re-registers itself. -/
def process_city_input (resp : String → String → ApiResult) (chat : ChatId)
    (text : String) (users : Store) : StepResult :=
  let city := (pyStrip text)
  match get_weather resp city DEFAULT_LANGUAGE with
  | Except.ok _ =>
      { users := PyDict.upsert users chat ⟨city, DEFAULT_LANGUAGE⟩
        next := NextStep.idle
        sent := (chat, "✅ Отлично! Теперь я буду присылать погоду для " ++ city
            ++ ".\nОбновления будут приходить каждые "
            ++ toString UPDATE_INTERVAL_MINUTES
            ++ " минут.\nИспользуй /now чтобы получить текущую погоду.")
          :: send_weather_update resp chat city DEFAULT_LANGUAGE }
  | Except.error _ =>
      { users := users
        next := NextStep.awaitingCity
        sent := [(chat, "❌ Не удалось найти город \x27" ++ text
            ++ "\x27. Пожалуйста, попробуйте еще раз.")] }

/-- v2 `stop_updates(message)` (`/stop`): deletes the chat's entry and
confirms when present, otherwise replies that the chat is not
subscribed. -/
def stop_updates (chat : ChatId) (users : Store) : Store × List (ChatId × String) :=
  if (PyDict.lookup users chat).isSome then
    (PyDict.erase users chat, [(chat, "🔴 Вы отменили подписку на обновления погоды.")])
  else
    (users, [(chat, "ℹ️ Вы не подписаны на обновления.")])

/-- v2 `send_current_weather(message)` (`/now`): prompts for a city only
when `chat.id not in users`; otherwise announces the request and calls
`send_weather_update` with the stored city and language. -/
def send_current_weather (resp : String → String → ApiResult) (chat : ChatId)
    (users : Store) : List (ChatId × String) :=
  match PyDict.lookup users chat with
  | none => [(chat, "Сначала укажите город с помощью /start")]
  | some info =>
      (chat, "⏳ Запрашиваю актуальную погоду...")
        :: send_weather_update resp chat info.city info.language

/-- v2 `process_language_selection(message)`: maps
`message.text.lower()` through `{'русский': 'ru', 'english': 'en'}`.
Invalid choice: error reply, nothing stored.  Chat absent from `users`:
stores `{"city": "", "language": lang}` and asks for a city.  Chat
present: overwrites only the `language` field and confirms. -/
def process_language_selection (chat : ChatId) (text : String) (users : Store) :
    Store × List (ChatId × String) :=
  let selected := pyLower text
  let lang? : Option String :=
    if selected = "русский" then some "ru"
    else if selected = "english" then some "en"
    else none
  match lang? with
  | none => (users, [(chat, "❌ Неверный выбор языка. Используйте кнопки.")])
  | some lang =>
      match PyDict.lookup users chat with
      | none =>
          (PyDict.upsert users chat ⟨"", lang⟩,
           [(chat, "Теперь укажите город с помощью /start")])
      | some info =>
          (PyDict.upsert users chat ⟨info.city, lang⟩,
           [(chat, "🌍 Язык изменен на " ++ text
              ++ ". Следующее обновление будет на выбранном языке.")])

/-- One scheduled broadcast run of v2 as a state transformer on the
`users` dict: the loop body of `send_updates_to_all_users` only reads
`users` (through `users.copy()`) and never assigns into it, so the store
passes through unchanged while the run produces its delivery attempts. -/
def broadcast_run (resp : String → String → ApiResult) (s : Store) :
    Store × List (ChatId × List (ChatId × String)) :=
  (s, send_updates_to_all_users resp s)

/-! ### resultv1.py

v1's endpoint URL has no `lang` parameter, so its provider is
`resp : String → ApiResult`; its translator (googletrans, `src='en'`,
`dest='ru'`) is `tr : String → Except String String`, where `error` models
the library raising an exception. -/

namespace V1

/-- v1's `users` dict: `{chat_id: {"city": city}}`, i.e. each record holds
only the city string. -/
abbrev Store := List (ChatId × String)

/-- v1 `get_weather(city)`: on `cod == 200` it translates the description
and formats the message — nothing catches a translator exception, so a
translation failure propagates out of `get_weather` (`error`).  On
`cod != 200` it returns the fixed fallback string (an `ok` value!).  A
`requests` fault or a `KeyError` on the expected fields is likewise
uncaught and propagates. -/
def get_weather (resp : String → ApiResult) (tr : String → Except String String)
    (city : String) : Except String String :=
  match resp city with
  | ApiResult.ok temp desc _ _ =>
      match tr desc with
      | Except.ok translated =>
          Except.ok ("Погода в городе " ++ city ++ ": " ++ temp ++ "°C, " ++ translated)
      | Except.error e => Except.error e
  | ApiResult.apiError _ => Except.ok "Не удалось получить погоду."
  | ApiResult.requestException e => Except.error e
  | ApiResult.parseError => Except.error "KeyError"

/-- v1 `send_weather_update(chat_id, city)`: sends whatever `get_weather`
returned; an exception from `get_weather` propagates (there is no
`try/except` here). -/
def send_weather_update (resp : String → ApiResult) (tr : String → Except String String)
    (chat : ChatId) (city : String) : Except String (List (ChatId × String)) :=
  match get_weather resp tr city with
  | Except.ok weather => Except.ok [(chat, weather)]
  | Except.error e => Except.error e

/-- v1 `send_updates_to_all_users()`: a bare `for` loop over
`users.items()` with no exception handling — an exception raised by one
`send_weather_update` aborts the whole loop.  Returns the chats for which
a delivery attempt was made (in order) and the exception that ended the
loop, if any. -/
def send_updates_to_all_users (resp : String → ApiResult)
    (tr : String → Except String String) : Store → List ChatId × Option String
  | [] => ([], none)
  | (chat, city) :: rest =>
      match send_weather_update resp tr chat city with
      | Except.ok _ =>
          let r := send_updates_to_all_users resp tr rest
          (chat :: r.1, r.2)
      | Except.error e => ([chat], some e)

/-- v1 `get_city(message)`: stores `message.text.strip()` for the chat and
confirms — no validation fetch of any kind, and no re-registration of a
next-step handler. -/
def get_city (chat : ChatId) (text : String) (users : Store) :
    Store × List (ChatId × String) :=
  let city := (pyStrip text)
  (PyDict.upsert users chat city,
   [(chat, "Отлично! Теперь я буду присылать погоду для города " ++ city ++ " каждый час.")])

/-- v1 `stop(message)` (`/stop`): same shape as v2's `stop_updates`. -/
def stop (chat : ChatId) (users : Store) : Store × List (ChatId × String) :=
  if (PyDict.lookup users chat).isSome then
    (PyDict.erase users chat, [(chat, "Вы отменили подписку на обновления погоды.")])
  else
    (users, [(chat, "Вы не подписаны на обновления.")])

/-- One scheduled broadcast run of v1 as a state transformer on `users`:
the loop only reads the dict. -/
def broadcast_run (resp : String → ApiResult) (tr : String → Except String String)
    (s : Store) : Store × (List ChatId × Option String) :=
  (s, send_updates_to_all_users resp tr s)

end V1

/-! ### Concrete environments used by witnesses and counterexamples -/

/-- A provider (v2 signature) that fails every fetch with a `cod != 200`
response whose `message` field is "city not found". -/
def respFail2 : String → String → ApiResult := fun _ _ => ApiResult.apiError "city not found"

/-- A provider (v2 signature) that answers every fetch successfully. -/
def respOk2 : String → String → ApiResult := fun _ _ => ApiResult.ok "20" "clear sky" "50" "3"

/-- A provider (v2 signature) whose failure message carries a marker
string standing for internal provider detail. -/
def respSecret2 : String → String → ApiResult := fun _ _ => ApiResult.apiError "SECRET123"

/-- A provider (v1 signature) that fails every fetch with `cod != 200`. -/
def respFail1 : String → ApiResult := fun _ => ApiResult.apiError "city not found"

/-- A provider (v1 signature) that answers every fetch successfully. -/
def respOk1 : String → ApiResult := fun _ => ApiResult.ok "20" "clear sky" "50" "3"

/-- A provider (v1 signature) that raises a network fault for city "A" and
succeeds for every other city. -/
def respNetA : String → ApiResult := fun city =>
  if city = "A" then ApiResult.requestException "boom" else ApiResult.ok "20" "clear sky" "50" "3"

/-- A translator that succeeds, returning the input unchanged. -/
def trOk : String → Except String String := fun t => Except.ok t

/-- A translator that always raises. -/
def trFail : String → Except String String := fun _ => Except.error "translator down"

/-! ### Helper lemmas -/

theorem PyDict.lookup_upsert_self {α : Type} (users : List (ChatId × α)) (chat : ChatId)
    (v : α) : PyDict.lookup (PyDict.upsert users chat v) chat = some v := by
  induction users with
  | nil => simp [PyDict.upsert, PyDict.lookup]
  | cons p rest ih =>
    by_cases h : p.1 = chat
    · simp [PyDict.upsert, h, PyDict.lookup]
    · simp [PyDict.upsert, h, PyDict.lookup, ih]

theorem PyDict.lookup_erase_self {α : Type} (users : List (ChatId × α)) (chat : ChatId) :
    PyDict.lookup (PyDict.erase users chat) chat = none := by
  induction users with
  | nil => rfl
  | cons p rest ih =>
    by_cases h : p.1 = chat
    · simpa [PyDict.erase, List.filter_cons, h] using ih
    · simpa [PyDict.erase, List.filter_cons, h, PyDict.lookup] using ih

/-- Unfolding of `process_city_input` when the validation fetch raises
`WeatherServiceError`. -/
theorem process_city_input_of_error (resp : String → String → ApiResult) (chat : ChatId)
    (text : String) (users : Store) (e : String)
    (h : get_weather resp (pyStrip text) DEFAULT_LANGUAGE = Except.error e) :
    process_city_input resp chat text users =
      { users := users
        next := NextStep.awaitingCity
        sent := [(chat, "❌ Не удалось найти город \x27" ++ text
            ++ "\x27. Пожалуйста, попробуйте еще раз.")] } := by
  simp only [process_city_input]
  rw [h]

/-- Unfolding of `process_city_input` when the validation fetch
succeeds. -/
theorem process_city_input_of_ok (resp : String → String → ApiResult) (chat : ChatId)
    (text : String) (users : Store) (w : String)
    (h : get_weather resp (pyStrip text) DEFAULT_LANGUAGE = Except.ok w) :
    process_city_input resp chat text users =
      { users := PyDict.upsert users chat ⟨(pyStrip text), DEFAULT_LANGUAGE⟩
        next := NextStep.idle
        sent := (chat, "✅ Отлично! Теперь я буду присылать погоду для " ++ (pyStrip text)
            ++ ".\nОбновления будут приходить каждые "
            ++ toString UPDATE_INTERVAL_MINUTES
            ++ " минут.\nИспользуй /now чтобы получить текущую погоду.")
          :: send_weather_update resp chat (pyStrip text) DEFAULT_LANGUAGE } := by
  simp only [process_city_input]
  rw [h]

/-- The v2 broadcast makes exactly one delivery attempt per stored
subscriber: the attempted chats are the stored chats, in order, whatever
the provider does. -/
theorem broadcast_attempts_eq_chats (resp : String → String → ApiResult) (users : Store) :
    (send_updates_to_all_users resp users).map Prod.fst = users.map Prod.fst := by
  induction users with
  | nil => rfl
  | cons p rest ih => simp [send_updates_to_all_users]

/-! ### Claims -/

/-- Claim C7: after a successful v2 city registration, `/stop` removes the
chat's record (lookup yields nothing) and replies with the unsubscription
confirmation; `/stop` for a chat not in the store leaves the store
untouched, replies "not subscribed" and raises no error.  The same holds
for v1's `get_city`/`stop`. -/
theorem c7_theorem :
    (∀ (resp : String → String → ApiResult) (chat : ChatId) (text : String) (users : Store)
        (w : String), get_weather resp (pyStrip text) DEFAULT_LANGUAGE = Except.ok w →
       PyDict.lookup (stop_updates chat (process_city_input resp chat text users).users).1 chat
         = none
       ∧ (stop_updates chat (process_city_input resp chat text users).users).2
           = [(chat, "🔴 Вы отменили подписку на обновления погоды.")])
    ∧ (∀ (chat : ChatId) (users : Store), PyDict.lookup users chat = none →
        stop_updates chat users = (users, [(chat, "ℹ️ Вы не подписаны на обновления.")]))
    ∧ (∀ (chat : ChatId) (text : String) (users : V1.Store),
        PyDict.lookup (V1.stop chat (V1.get_city chat text users).1).1 chat = none
        ∧ (V1.stop chat (V1.get_city chat text users).1).2
            = [(chat, "Вы отменили подписку на обновления погоды.")])
    ∧ (∀ (chat : ChatId) (users : V1.Store), PyDict.lookup users chat = none →
        V1.stop chat users = (users, [(chat, "Вы не подписаны на обновления.")])) := by
  refine ⟨?_, ?_, ?_, ?_⟩
  · intro resp chat text users w h
    rw [process_city_input_of_ok resp chat text users w h]
    simp [stop_updates, PyDict.lookup_upsert_self, PyDict.lookup_erase_self]
  · intro chat users h
    simp [stop_updates, h]
  · intro chat text users
    simp [V1.stop, V1.get_city, PyDict.lookup_upsert_self, PyDict.lookup_erase_self]
  · intro chat users h
    simp [V1.stop, h]

/-- Witness for C7 at concrete inputs: a registration for chat 1 followed
by `/stop`, and `/stop` on stores without the chat. -/
theorem c7_witness :
    (PyDict.lookup (stop_updates 1 (process_city_input respOk2 1 "Paris" []).users).1 1 = none
      ∧ (stop_updates 1 (process_city_input respOk2 1 "Paris" []).users).2
          = [(1, "🔴 Вы отменили подписку на обновления погоды.")])
    ∧ stop_updates 2 [] = ([], [(2, "ℹ️ Вы не подписаны на обновления.")])
    ∧ V1.stop 2 [] = ([], [(2, "Вы не подписаны на обновления.")]) :=
  ⟨c7_theorem.1 respOk2 1 "Paris" [] _ rfl, c7_theorem.2.1 2 [] rfl, c7_theorem.2.2.2 2 [] rfl⟩

/-- Claim C8: two successive broadcast runs over an unchanged subscriber
store with the same provider make the same number of delivery attempts —
the run leaves the store as it was, both runs are determined by (store,
provider), and in v2 each run attempts exactly one delivery per stored
subscriber.  Stated for v2 and for v1. -/
theorem c8_theorem (resp : String → String → ApiResult) (s : Store)
    (resp1 : String → ApiResult) (tr : String → Except String String) (s1 : V1.Store) :
    (broadcast_run resp s).1 = s
    ∧ ((broadcast_run resp (broadcast_run resp s).1).2).length = ((broadcast_run resp s).2).length
    ∧ ((broadcast_run resp s).2).length = s.length
    ∧ (V1.broadcast_run resp1 tr s1).1 = s1
    ∧ ((V1.broadcast_run resp1 tr (V1.broadcast_run resp1 tr s1).1).2.1).length
        = ((V1.broadcast_run resp1 tr s1).2.1).length := by
  refine ⟨rfl, rfl, ?_, rfl, rfl⟩
  simp [broadcast_run, send_updates_to_all_users]

/-- Claim C10: in v2, a successful city registration stores
`{"city": city, "language": "ru"}` unconditionally — whatever language the
chat had previously selected is overwritten by the default. -/
theorem c10_theorem (resp : String → String → ApiResult) (chat : ChatId) (text : String)
    (users : Store) (w : String)
    (h : get_weather resp (pyStrip text) DEFAULT_LANGUAGE = Except.ok w) :
    PyDict.lookup (process_city_input resp chat text users).users chat
      = some ⟨(pyStrip text), "ru"⟩ := by
  rw [process_city_input_of_ok resp chat text users w h]
  exact PyDict.lookup_upsert_self users chat _

/-- Witness for C10: chat 1 had selected language "en"; registering
"London" succeeds and leaves the record with language "ru". -/
theorem c10_witness :
    PyDict.lookup (process_city_input respOk2 1 "London" [(1, ⟨"Paris", "en"⟩)]).users 1
      = some ⟨"London", "ru"⟩ := by
  exact c10_theorem respOk2 1 "London" [(1, ⟨"Paris", "en"⟩)] _ rfl

/-- Counterexample for C1: the provider fails the fetch for "Atlantis"
(both the v2 fetch and the provider call underlying v1), yet v1's city
handler `get_city` — which performs no validation fetch — creates a record
for chat 1 although none existed before, and does not arm any next-step
handler for a retry. -/
theorem c1_counterexample :
    respFail1 "Atlantis" = ApiResult.apiError "city not found"
    ∧ get_weather respFail2 "Atlantis" DEFAULT_LANGUAGE
        = Except.error "API error: city not found"
    ∧ (V1.get_city 1 "Atlantis" []).1 = [(1, "Atlantis")]
    ∧ PyDict.lookup (V1.get_city 1 "Atlantis" []).1 1 = some "Atlantis" :=
  ⟨rfl, rfl, rfl, rfl⟩

/-- Claim C1 as amended: in v2, a city input whose validation fetch fails
leaves the store untouched and re-arms `process_city_input` (the chat
stays awaiting a city); v1's `get_city`, however, performs no validation
at all and unconditionally writes the stripped input into the store, so a
city whose fetch fails still creates or overwrites the chat's record
there. -/
theorem c1_theorem :
    (∀ (resp : String → String → ApiResult) (chat : ChatId) (text : String) (users : Store)
        (e : String), get_weather resp (pyStrip text) DEFAULT_LANGUAGE = Except.error e →
       (process_city_input resp chat text users).users = users
       ∧ (process_city_input resp chat text users).next = NextStep.awaitingCity)
    ∧ (∀ (chat : ChatId) (text : String) (users : V1.Store),
        (V1.get_city chat text users).1 = PyDict.upsert users chat (pyStrip text)) := by
  constructor
  · intro resp chat text users e h
    rw [process_city_input_of_error resp chat text users e h]
    exact ⟨rfl, rfl⟩
  · intro chat text users
    rfl

/-- Witness for C1 at concrete inputs: with an always-failing provider,
registering "Atlantis" for chat 1 over an empty v2 store changes nothing
and stays awaiting a city, while v1 stores the city anyway. -/
theorem c1_witness :
    ((process_city_input respFail2 1 "Atlantis" []).users = []
      ∧ (process_city_input respFail2 1 "Atlantis" []).next = NextStep.awaitingCity)
    ∧ (V1.get_city 1 "Atlantis" []).1 = PyDict.upsert [] 1 (pyStrip "Atlantis") :=
  ⟨c1_theorem.1 respFail2 1 "Atlantis" [] "API error: city not found" rfl,
   c1_theorem.2 1 "Atlantis" []⟩

/-- Counterexample for C2: in v1, with subscribers 1 ("A") and 2 ("B") and
a provider whose fetch for "A" raises a network fault, the broadcast loop
aborts after the first attempt — subscriber 2 gets no delivery attempt. -/
theorem c2_counterexample :
    (V1.send_updates_to_all_users respNetA trOk [(1, "A"), (2, "B")]).1 = [1]
    ∧ (2 : ChatId) ∉ (V1.send_updates_to_all_users respNetA trOk [(1, "A"), (2, "B")]).1
    ∧ (V1.send_updates_to_all_users respNetA trOk [(1, "A"), (2, "B")]).2 = some "boom" := by
  refine ⟨rfl, ?_, rfl⟩
  decide

/-- Claim C2 as amended: in v2's `send_updates_to_all_users` every stored
subscriber receives a delivery attempt whatever the provider does, so one
failing fetch never suppresses the other N-1 attempts; in v1, however, a
fetch that raises an exception aborts the loop — once the head
subscriber's fetch raises, no later subscriber is attempted (only the
`cod != 200` kind of failure, turned into fallback text, keeps the v1
iteration going). -/
theorem c2_theorem :
    (∀ (resp : String → String → ApiResult) (users : Store),
       (send_updates_to_all_users resp users).map Prod.fst = users.map Prod.fst)
    ∧ (∀ (resp : String → ApiResult) (tr : String → Except String String) (chat : ChatId)
        (city : String) (rest : V1.Store) (e : String),
        V1.get_weather resp tr city = Except.error e →
        (V1.send_updates_to_all_users resp tr ((chat, city) :: rest)).1 = [chat]) := by
  constructor
  · intro resp users
    exact broadcast_attempts_eq_chats resp users
  · intro resp tr chat city rest e h
    simp [V1.send_updates_to_all_users, V1.send_weather_update, h]

/-- Witness for C2 at concrete inputs: a failing provider still yields one
v2 attempt per subscriber, and in v1 a raising fetch at the head leaves
the tail unattempted. -/
theorem c2_witness :
    (send_updates_to_all_users respFail2 [(3, ⟨"Paris", "ru"⟩), (4, ⟨"Omsk", "ru"⟩)]).map Prod.fst
      = [(3, (⟨"Paris", "ru"⟩ : UserInfo)), (4, ⟨"Omsk", "ru"⟩)].map Prod.fst
    ∧ (V1.send_updates_to_all_users respNetA trOk [(3, "A"), (4, "B")]).1 = [3] :=
  ⟨c2_theorem.1 respFail2 [(3, ⟨"Paris", "ru"⟩), (4, ⟨"Omsk", "ru"⟩)],
   c2_theorem.2 respNetA trOk 3 "A" [(4, "B")] "boom" rfl⟩

/-- Counterexample for C3: a subscriber whose stored city is the empty
string is not excluded from the v2 broadcast — with store
`[(1, {city:"", language:"en"})]` the broadcast makes a delivery attempt
for chat 1, fetching weather for the empty city name and sending chat 1
the resulting failure message. -/
theorem c3_counterexample :
    (send_updates_to_all_users respFail2 [(1, ⟨"", "en"⟩)]).map Prod.fst = [1]
    ∧ send_weather_update respFail2 1 "" "en"
        = [(1, "Не удалось получить погоду для : API error: city not found")] :=
  ⟨rfl, rfl⟩

/-- Claim C3 as amended: v2's broadcast does not exclude empty-city
subscribers — every stored subscriber, the empty-city ones included, gets
a delivery attempt (with a weather fetch for the empty city name) in every
broadcast cycle. -/
theorem c3_theorem (resp : String → String → ApiResult) (users : Store) (chat : ChatId)
    (info : UserInfo) (h : (chat, info) ∈ users) :
    chat ∈ (send_updates_to_all_users resp users).map Prod.fst := by
  rw [broadcast_attempts_eq_chats]
  exact List.mem_map_of_mem Prod.fst h

/-- Witness for C3 at a concrete input: chat 5 with empty city is
attempted by the broadcast. -/
theorem c3_witness :
    (5 : ChatId) ∈ (send_updates_to_all_users respFail2 [(5, ⟨"", "en"⟩)]).map Prod.fst :=
  c3_theorem respFail2 [(5, ⟨"", "en"⟩)] 5 ⟨"", "en"⟩ (by decide)

/-- Counterexample for C4: chat 1 with no prior subscription selects
"English" — the store then holds `{city:"", language:"en"}` as claimed,
but a subsequent `/now` does not prompt to set a city: the chat is in
`users`, so `/now` announces the request and attempts a weather delivery
for the empty city (here ending in the provider-failure message).  The
set-a-city prompt appears nowhere in its output. -/
theorem c4_counterexample :
    (process_language_selection 1 "English" []).1 = [(1, ⟨"", "en"⟩)]
    ∧ send_current_weather respFail2 1 [(1, ⟨"", "en"⟩)]
        = [(1, "⏳ Запрашиваю актуальную погоду..."),
           (1, "Не удалось получить погоду для : API error: city not found")]
    ∧ "Сначала укажите город с помощью /start"
        ∉ (send_current_weather respFail2 1 [(1, ⟨"", "en"⟩)]).map Prod.snd := by
  refine ⟨rfl, rfl, ?_⟩
  decide

/-- Claim C4 as amended: selecting English via `/language` with no prior
subscription stores exactly `{city:"", language:"en"}` for the chat and
asks for a city; but a subsequent `/now` does not prompt to set a city —
since the chat is now present in `users`, `/now` announces the request and
runs a weather delivery attempt for the empty city name. -/
theorem c4_theorem (chat : ChatId) (resp : String → String → ApiResult) :
    (process_language_selection chat "English" []).1 = [(chat, ⟨"", "en"⟩)]
    ∧ (process_language_selection chat "English" []).2
        = [(chat, "Теперь укажите город с помощью /start")]
    ∧ send_current_weather resp chat [(chat, ⟨"", "en"⟩)]
        = (chat, "⏳ Запрашиваю актуальную погоду...")
            :: send_weather_update resp chat "" "en" := by
  refine ⟨rfl, rfl, ?_⟩
  simp [send_current_weather, PyDict.lookup]

/-- Counterexample for C5: the provider returns weather data for "Paris"
but the translator raises — v1's `get_weather` then fails with the
translator's error instead of falling back to the untranslated
description: the fetch does not succeed. -/
theorem c5_counterexample :
    respOk1 "Paris" = ApiResult.ok "20" "clear sky" "50" "3"
    ∧ V1.get_weather respOk1 trFail "Paris" = Except.error "translator down" :=
  ⟨rfl, rfl⟩

/-- Claim C5 as amended: in v1, when the weather data is obtained but the
translation step fails, the fetch does not still succeed — nothing catches
the translator's exception inside `get_weather`, so it propagates as a
fetch failure and no fallback to the untranslated description happens.
(v2's `get_weather` performs no translation step at all; its
`translate_text` is uncalled.) -/
theorem c5_theorem (resp : String → ApiResult) (tr : String → Except String String)
    (city temp desc hum wind e : String)
    (h1 : resp city = ApiResult.ok temp desc hum wind)
    (h2 : tr desc = Except.error e) :
    V1.get_weather resp tr city = Except.error e := by
  simp [V1.get_weather, h1, h2]

/-- Witness for C5 at a concrete input. -/
theorem c5_witness :
    V1.get_weather respOk1 trFail "London" = Except.error "translator down" :=
  c5_theorem respOk1 trFail "London" "20" "clear sky" "50" "3" "translator down" rfl rfl

/-- Counterexample for C6: with a provider whose failure detail is
"SECRET123", the v2 broadcast over a store holding chat 7 sends chat 7 an
error message — and that message embeds the raw provider error string
("API error: SECRET123") — contradicting both that broadcast failures are
only logged and that users never see raw provider errors. -/
theorem c6_counterexample :
    send_updates_to_all_users respSecret2 [(7, ⟨"Paris", "ru"⟩)]
      = [(7, [(7, "Не удалось получить погоду для Paris: API error: SECRET123")])] :=
  rfl

/-- Claim C6 as amended: in the city-registration path the user-visible
failure reply is a fixed sanitized text interpolating only the user's own
input, independent of the provider error; but `send_weather_update` — the
path behind both `/now` and the broadcast — sends the subscriber an error
message that embeds the raw provider error string `str(e)`, so provider
errors do reach users on those paths and broadcast failures are not merely
logged. -/
theorem c6_theorem :
    (∀ (resp : String → String → ApiResult) (chat : ChatId) (text : String) (users : Store)
        (e : String), get_weather resp (pyStrip text) DEFAULT_LANGUAGE = Except.error e →
       (process_city_input resp chat text users).sent
         = [(chat, "❌ Не удалось найти город \x27" ++ text
             ++ "\x27. Пожалуйста, попробуйте еще раз.")])
    ∧ (∀ (resp : String → String → ApiResult) (chat : ChatId) (city language e : String),
        get_weather resp city language = Except.error e →
        send_weather_update resp chat city language
          = [(chat, "Не удалось получить погоду для " ++ city ++ ": " ++ e)]) := by
  constructor
  · intro resp chat text users e h
    rw [process_city_input_of_error resp chat text users e h]
  · intro resp chat city language e h
    simp [send_weather_update, h]

/-- Witness for C6 at concrete inputs, with the marker provider. -/
theorem c6_witness :
    (process_city_input respSecret2 9 "Paris" []).sent
      = [((9 : ChatId), "❌ Не удалось найти город \x27" ++ "Paris"
          ++ "\x27. Пожалуйста, попробуйте еще раз.")]
    ∧ send_weather_update respSecret2 9 "Paris" "ru"
      = [((9 : ChatId), "Не удалось получить погоду для " ++ "Paris" ++ ": "
          ++ "API error: SECRET123")] :=
  ⟨c6_theorem.1 respSecret2 9 "Paris" [] "API error: SECRET123" rfl,
   c6_theorem.2 respSecret2 9 "Paris" "ru" "API error: SECRET123" rfl⟩
